import Mathlib

/-!
Verification of the OAuth broker core of the service-provider-integration-oauth
repository, as a shallow embedding in Lean 4.

The embedding follows src/controllers/common.go (commonController: Authenticate,
Callback, finishOAuthExchange, syncTokenData, logAndWriteResponse, redirectUrl),
src/controllers/token_upload.go (TokenUploader.Handle) and src/main.go
(handleUpload).  External collaborators (the oauthstate codec from the operator
module, the Kubernetes client, the token storage, the provider HTTP endpoints)
are interface-valued fields of the controller in the Go code; they are modelled
here as explicit parameters carrying the result each call would produce, plus an
explicit effect trace recording which calls were made and an explicit state for
the cluster records and the token storage.

Machine integers: the only machine-integer arithmetic the claims touch is the
Go conversion uint64(int64), modelled as Int.emod by 2^64 (goUint64).
-/

/-- AnonymousOAuthState from the operator's oauthstate package: the payload of
the `state` parameter before a caller identity is attached.  Field set as in
the spec's data model (token name/namespace, issuedAt, scopes, provider type
and url). -/
structure AnonymousOAuthState where
  tokenName : String
  tokenNamespace : String
  issuedAt : Int
  scopes : List String
  serviceProviderType : String
  serviceProviderUrl : String
deriving DecidableEq, Repr

/-- user.DefaultInfo from k8s.io/apiserver: name, uid, groups and extra
attributes of a caller identity. -/
structure UserDefaultInfo where
  name : String
  uid : String
  groups : List String
  extra : List (String × List String)
deriving DecidableEq, Repr

/-- AuthenticatedOAuthState: embeds AnonymousOAuthState and adds the captured
caller identity and the raw authorization header. -/
structure AuthenticatedOAuthState where
  anonymousOAuthState : AnonymousOAuthState
  kubernetesIdentity : UserDefaultInfo
  authorizationHeader : String
deriving DecidableEq, Repr

/-- oauth2.Token as far as the controller reads it: access token, token type,
refresh token and the expiry instant.  token.Expiry.Unix() is carried directly
as the Int expiryUnixSeconds (Go's zero time has Unix() = -62135596800). -/
structure OAuth2TokenData where
  accessToken : String
  tokenType : String
  refreshToken : String
  expiryUnixSeconds : Int
deriving DecidableEq, Repr

/-- v1beta1.TokenMetadata: provider user identity facts. -/
structure TokenMetadata where
  userId : String
  userName : String
deriving DecidableEq, Repr

/-- Go conversion uint64(i) for an int64 value i: two's-complement
reinterpretation, i.e. reduction modulo 2^64. -/
def goUint64 (i : Int) : Nat := (i % (2 ^ 64 : Int)).toNat

/-- v1beta1.Token as built by syncTokenData: Expiry is a uint64, modelled as a
Nat below 2^64. -/
structure ApiToken where
  accessToken : String
  tokenType : String
  refreshToken : String
  expiry : Nat
deriving DecidableEq, Repr

/-- v1beta1.SPIAccessToken (owner record): the status sub-object holds the
TokenMetadata after a successful callback. -/
structure SPIAccessToken where
  statusTokenMetadata : Option TokenMetadata
deriving DecidableEq, Repr

/-- One outbound call made by the controller, recorded in the effect trace. -/
inductive Event where
  | exchangeCall (code scope : String)
  | metadataFetch
  | k8sGet (name nspace : String)
  | storeCall (name nspace : String) (data : ApiToken)
  | updateCall (name nspace : String)
  | bodyDecodeCall
deriving DecidableEq, Repr

/-- The mutable world the handlers act on: the cluster's owner records and the
backing token storage, both keyed by (name, namespace), plus the trace of
outbound calls already made. -/
structure EffState where
  cluster : List ((String × String) × SPIAccessToken)
  storage : List ((String × String) × ApiToken)
  events : List Event
deriving DecidableEq, Repr

/-- Keyed lookup in an association list (the cluster / storage maps).  The most
recent write is at the head, so the first hit is the current value. -/
def findRecord {α : Type} (key : String × String) :
    List ((String × String) × α) → Option α
  | [] => none
  | (k, v) :: rest => if k = key then some v else findRecord key rest

/-- A parsed http.Request as the handlers read it: the method, the combined
form/query values consulted by r.FormValue, and the Authorization header. -/
structure HttpRequest where
  method : String
  form : List (String × String)
  authorizationHeader : String
deriving DecidableEq, Repr

/-- r.FormValue(key): first value for the key, or the empty string. -/
def formValue (r : HttpRequest) (key : String) : String :=
  (List.lookup key r.form).getD ""

/-- The observable part of an http.ResponseWriter: the status line actually
sent (the first WriteHeader wins, later calls are ignored), the Location
header as transmitted, and the accumulated body. -/
structure ResponseWriter where
  status : Option Nat
  location : Option String
  body : String
deriving DecidableEq, Repr

def ResponseWriter.init : ResponseWriter := ⟨none, none, ""⟩

/-- w.WriteHeader(code): only the first call takes effect. -/
def writeHeader (w : ResponseWriter) (code : Nat) : ResponseWriter :=
  match w.status with
  | some _ => w
  | none => { w with status := some code }

/-- A write to the response body. -/
def writeBody (w : ResponseWriter) (s : String) : ResponseWriter :=
  { w with body := w.body ++ s }

/-- Setting the Location header: a header mutation after WriteHeader is not
transmitted, so it only takes effect while no status has been written. -/
def setLocationHeader (w : ResponseWriter) (l : String) : ResponseWriter :=
  match w.status with
  | some _ => w
  | none => { w with location := some l }

/-- logAndWriteResponse(w, status, msg, err) from common.go: writes the status,
then fmt.Fprintf(w, msg+": ", err.Error()).  The format string contains no
verb, so fmt appends the error text in an EXTRA clause, which is how the error
message reaches the body. -/
def logAndWriteResponse (w : ResponseWriter) (status : Nat) (msg errText : String) :
    ResponseWriter :=
  writeBody (writeHeader w status) (msg ++ ": " ++ "%!(EXTRA string=" ++ errText ++ ")")

/-- http.StatusText for the codes the controller uses. -/
def statusText (code : Nat) : String :=
  if code = 302 then "Found" else ""

/-- The characters html-escaped by http.Redirect's body writer. -/
def htmlEscapeChar (c : Char) : String :=
  if c = Char.ofNat 38 then "&amp;"
  else if c = Char.ofNat 60 then "&lt;"
  else if c = Char.ofNat 62 then "&gt;"
  else if c = Char.ofNat 34 then "&quot;"
  else if c = Char.ofNat 39 then "&#39;"
  else String.singleton c

def htmlEscape (s : String) : String :=
  String.join (s.data.map htmlEscapeChar)

/-- http.Redirect(w, r, url, code): sets the Location header, writes the
status, and for GET requests writes a short hypertext body.  If a status is
already on the wire, neither the header nor the new status has any effect. -/
def httpRedirect (w : ResponseWriter) (r : HttpRequest) (url : String) (code : Nat) :
    ResponseWriter :=
  let w := setLocationHeader w url
  let w := writeHeader w code
  writeBody w
    (if r.method = "GET" then
      "<a href=\"" ++ htmlEscape url ++ "\">" ++ statusText code ++ "</a>.\n\n"
    else "")

/-- strings.TrimSuffix: drops one occurrence of the suffix when present.  The
inputs in this codebase are ASCII, where byte length and character length
coincide. -/
def goTrimSuffix (s suffix : String) : String :=
  if s.endsWith suffix then s.dropRight suffix.length else s

/-- strings.ToLower, on the ASCII provider-type names used here. -/
def asciiLower (s : String) : String := String.map Char.toLower s

/-- The oauthstate codec interface as the controller consumes it (the codec
implementation lives in the operator module, outside this repository):
ParseAnonymous, ParseAuthenticated and EncodeAuthenticated, each fallible. -/
structure Codec where
  parseAnonymous : String → Except String AnonymousOAuthState
  parseAuthenticated : String → Except String AuthenticatedOAuthState
  encodeAuthenticated : AuthenticatedOAuthState → Except String String

/-- Modelled from the spec: the serialization half of the State Codec, which is
not under src/ (it lives in the operator module).  "a compact signed token
binds the serialized payload to a signature using a shared server-held
secret"; the payload is a field-by-field serialization of the state. -/
def serializeAnonymous (s : AnonymousOAuthState) : String :=
  s.tokenName ++ "|" ++ s.tokenNamespace ++ "|" ++ toString s.issuedAt ++ "|" ++
    String.intercalate "," s.scopes ++ "|" ++ s.serviceProviderType ++ "|" ++
    s.serviceProviderUrl

/-- Modelled from the spec: serialization of the caller identity carried inside
an AuthenticatedFlowState. -/
def serializeIdentity (i : UserDefaultInfo) : String :=
  i.name ++ "|" ++ i.uid ++ "|" ++ String.intercalate ";" i.groups

/-- Modelled from the spec: serialization of an AuthenticatedFlowState, led by
the variant discriminator required by the codec contract. -/
def serializeAuthenticated (s : AuthenticatedOAuthState) : String :=
  "authenticated|" ++ serializeAnonymous s.anonymousOAuthState ++ "|" ++
    serializeIdentity s.kubernetesIdentity ++ "|" ++ s.authorizationHeader

/-- Modelled from the spec: the signature of the signed envelope, binding the
payload to the shared secret. -/
def signPayload (secret payload : String) : String :=
  "sig(" ++ secret ++ "," ++ payload ++ ")"

/-- Modelled from the spec: EncodeAuthenticated of the State Codec (not under
src/): the compact signed envelope for the authenticated variant, serialized
payload joined to its signature.  It is never the empty string. -/
def specEncodeAuthenticated (secret : String) (s : AuthenticatedOAuthState) :
    Except String String :=
  Except.ok (serializeAuthenticated s ++ "." ++ signPayload secret (serializeAuthenticated s))

/-- oauth2.Config as AuthCodeURL reads it. -/
structure OAuth2Config where
  clientID : String
  clientSecret : String
  redirectURL : String
  authURL : String
  scopes : List String
deriving DecidableEq, Repr

/-- The query parameters assembled by oauth2.Config.AuthCodeURL, in the order
url.Values.Encode emits them (sorted by key): response_type=code and client_id
always; redirect_uri, scope (space-joined) and state only when non-empty. -/
def authCodeParams (cfg : OAuth2Config) (state : String) : List (String × String) :=
  [("client_id", cfg.clientID)]
    ++ (if cfg.redirectURL = "" then [] else [("redirect_uri", cfg.redirectURL)])
    ++ [("response_type", "code")]
    ++ (if cfg.scopes = [] then [] else [("scope", String.intercalate " " cfg.scopes)])
    ++ (if state = "" then [] else [("state", state)])

/-- url.QueryEscape on one character: unreserved characters kept, space mapped
to +, the rest percent-encoded with uppercase hex (ASCII-faithful model). -/
def queryEscapeChar (c : Char) : String :=
  if (Char.ofNat 97 ≤ c && c ≤ Char.ofNat 122) ||
     (Char.ofNat 65 ≤ c && c ≤ Char.ofNat 90) ||
     (Char.ofNat 48 ≤ c && c ≤ Char.ofNat 57) ||
     c = Char.ofNat 45 || c = Char.ofNat 95 || c = Char.ofNat 46 || c = Char.ofNat 126 then
    String.singleton c
  else if c = Char.ofNat 32 then "+"
  else
    let n := c.toNat
    let hex := fun (d : Nat) => if d < 10 then Char.ofNat (48 + d) else Char.ofNat (55 + d)
    "%" ++ String.singleton (hex (n / 16)) ++ String.singleton (hex (n % 16))

def queryEscape (s : String) : String :=
  String.join (s.data.map queryEscapeChar)

/-- url.Values.Encode over the already-sorted parameter list. -/
def encodeQuery (ps : List (String × String)) : String :=
  String.intercalate "&" (ps.map (fun p => queryEscape p.1 ++ "=" ++ queryEscape p.2))

/-- oauth2.Config.AuthCodeURL(state): the endpoint auth URL, a ? or & joiner,
and the encoded query. -/
def authCodeURL (cfg : OAuth2Config) (state : String) : String :=
  cfg.authURL ++ (if cfg.authURL.contains (Char.ofNat 63) then "&" else "?")
    ++ encodeQuery (authCodeParams cfg state)

/-- commonController: the configuration fields read by the handlers.  The
interface-valued collaborators (codec, storage, k8s client, metadata
retriever) are passed to the handler functions as explicit parameters. -/
structure CommonController where
  clientId : String
  clientSecret : String
  serviceProviderType : String
  baseUrl : String
  authURL : String
  tokenURL : String
deriving DecidableEq, Repr

/-- commonController.redirectUrl: trimmed base url + "/" + lowercased provider
type + "/callback". -/
def redirectUrl (c : CommonController) : String :=
  goTrimSuffix c.baseUrl "/" ++ "/" ++ asciiLower c.serviceProviderType ++ "/callback"

/-- user.DefaultInfo{} as constructed at the top of Authenticate (the identity
check is commented out in the source, so the identity is always empty). -/
def emptyIdentity : UserDefaultInfo := ⟨"", "", [], []⟩

/-- commonController.Authenticate.  Mirrors common.go lines 61-118, including
the commented-out credential check (absent here as it is absent there) and the
missing return after the encode-failure 500: control falls through to the
redirect, whose status and Location have no effect on the already-written
response.  On an encode error the Go codec returns the zero-value string, so
AuthCodeURL receives "". -/
def Authenticate (c : CommonController) (codecResult : Except String Codec)
    (r : HttpRequest) (w : ResponseWriter) : ResponseWriter :=
  let stateString := formValue r "state"
  match codecResult with
  | Except.error e =>
    logAndWriteResponse w 500 "failed to instantiate OAuth stateString codec" e
  | Except.ok codec =>
    match codec.parseAnonymous stateString with
    | Except.error e => logAndWriteResponse w 400 "failed to decode the OAuth state" e
    | Except.ok state =>
      let identity := emptyIdentity
      let authorizationHeader := ""
      let authedState : AuthenticatedOAuthState :=
        ⟨state, identity, authorizationHeader⟩
      let oauthCfg : OAuth2Config :=
        { clientID := c.clientId, clientSecret := c.clientSecret,
          redirectURL := redirectUrl c, authURL := c.authURL,
          scopes := authedState.anonymousOAuthState.scopes }
      match codec.encodeAuthenticated authedState with
      | Except.error e =>
        let w := logAndWriteResponse w 500 "failed to encode OAuth state" e
        httpRedirect w r (authCodeURL oauthCfg "") 302
      | Except.ok stateString2 =>
        httpRedirect w r (authCodeURL oauthCfg stateString2) 302

/-- The result triple of finishOAuthExchange, as the sum of the producible
(token, state, result, err) combinations; the enum values are those of
oauthFinishResult in controller.go. -/
inductive OauthFinish where
  | authenticated (token : OAuth2TokenData) (state : AuthenticatedOAuthState)
  | k8sAuthRequired
  | errored (err : String)
deriving DecidableEq, Repr

/-- The collaborator results consumed by Callback: the codec construction, the
provider token-endpoint exchange (a function of the code and scope form
values), the provider user-metadata call, and the outcomes of the token-store
write and the owner-record update. -/
structure CallbackEnv where
  codec : Except String Codec
  exchange : String → String → Except String OAuth2TokenData
  retrieveUserMetadata : OAuth2TokenData → Except String TokenMetadata
  storeResult : Except String Unit
  updateResult : Except String Unit

/-- commonController.finishOAuthExchange (common.go lines 155-200): decode the
state, then exchange the code (passing the scope form value through); the
caller-identity comparison of lines 170-184 is commented out in the source, so
no branch of this function produces k8sAuthRequired. -/
def finishOAuthExchange (env : CallbackEnv) (r : HttpRequest) (s : EffState) :
    OauthFinish × EffState :=
  let stateString := formValue r "state"
  match env.codec with
  | Except.error e => (OauthFinish.errored e, s)
  | Except.ok codec =>
    match codec.parseAuthenticated stateString with
    | Except.error e => (OauthFinish.errored e, s)
    | Except.ok state =>
      let code := formValue r "code"
      let scope := formValue r "scope"
      let s2 := { s with events := s.events ++ [Event.exchangeCall code scope] }
      match env.exchange code scope with
      | Except.error e => (OauthFinish.errored e, s2)
      | Except.ok token => (OauthFinish.authenticated token state, s2)

/-- commonController.syncTokenData (common.go lines 203-230): Get the owner
record by (tokenName, tokenNamespace); build the v1beta1.Token with Expiry =
uint64(token.Expiry.Unix()); Store it; then attach the metadata to the record
status and Update.  Each step aborts the rest on failure; a successful store
is never rolled back. -/
def syncTokenData (env : CallbackEnv) (token : OAuth2TokenData)
    (state : AuthenticatedOAuthState) (metadata : TokenMetadata) (s : EffState) :
    Except String Unit × EffState :=
  let name := state.anonymousOAuthState.tokenName
  let ns := state.anonymousOAuthState.tokenNamespace
  let s := { s with events := s.events ++ [Event.k8sGet name ns] }
  match findRecord (name, ns) s.cluster with
  | none => (Except.error "spiaccesstokens.appstudio.redhat.com not found", s)
  | some accessToken =>
    let apiToken : ApiToken :=
      { accessToken := token.accessToken, tokenType := token.tokenType,
        refreshToken := token.refreshToken, expiry := goUint64 token.expiryUnixSeconds }
    let s := { s with events := s.events ++ [Event.storeCall name ns apiToken] }
    match env.storeResult with
    | Except.error e => (Except.error e, s)
    | Except.ok _ =>
      let s := { s with storage := ((name, ns), apiToken) :: s.storage }
      let updated := { accessToken with statusTokenMetadata := some metadata }
      let s := { s with events := s.events ++ [Event.updateCall name ns] }
      match env.updateResult with
      | Except.error e => (Except.error e, s)
      | Except.ok _ => (Except.ok (), { s with cluster := ((name, ns), updated) :: s.cluster })

/-- commonController.Callback (common.go lines 120-151): exchange, then
metadata, then persistence, then the final redirect to redirect_after_login or
to the default callback_success location.  The k8sAuthRequired branch is kept
as in the source; it is unreachable because finishOAuthExchange never produces
that result (there the source would format a nil error). -/
def Callback (c : CommonController) (env : CallbackEnv) (r : HttpRequest)
    (w : ResponseWriter) (s : EffState) : ResponseWriter × EffState :=
  match finishOAuthExchange env r s with
  | (OauthFinish.errored e, s) =>
    (logAndWriteResponse w 400 "error in Service Provider token exchange" e, s)
  | (OauthFinish.k8sAuthRequired, s) =>
    (logAndWriteResponse w 401 "could not authenticate to Kubernetes" "", s)
  | (OauthFinish.authenticated token state, s) =>
    let s := { s with events := s.events ++ [Event.metadataFetch] }
    match env.retrieveUserMetadata token with
    | Except.error e =>
      (logAndWriteResponse w 500 "failed to get Service Provider user" e, s)
    | Except.ok metadata =>
      match syncTokenData env token state metadata s with
      | (Except.error e, s) =>
        (logAndWriteResponse w 500 "failed to store token data to cluster" e, s)
      | (Except.ok _, s) =>
        let redirectLocation := formValue r "redirect_after_login"
        let redirectLocation :=
          if redirectLocation = "" then
            goTrimSuffix c.baseUrl "/" ++ "/" ++ "callback_success"
          else redirectLocation
        (httpRedirect w r redirectLocation 302, s)

/-- A Go error as handleUpload inspects it: either an error implementing
errors.APIStatus (carrying a Kubernetes status code, e.g. 404 for a missing
record) or any other error. -/
inductive GoError where
  | apiStatus (code : Nat) (msg : String)
  | plain (msg : String)
deriving DecidableEq, Repr

/-- The collaborator results consumed by TokenUploader.Handle: the outcome of
WithAuthFromRequestIntoContext (modelled from the spec: it derives a
caller-credential context from the request and fails when that is not
possible; its definition is not under src/), the JSON decode of the request
body, and the storage write. -/
structure UploadEnv where
  authResult : Except GoError Unit
  bodyDecode : Except GoError ApiToken
  storeResult : Except GoError Unit

/-- TokenUploader.Handle (token_upload.go lines 31-53): attach the caller
context, Get the owner record by the path's name/namespace (a missing record
is a 404 APIStatus error), decode the JSON body, and Store. -/
def tokenUploaderHandle (env : UploadEnv) (name ns : String) (s : EffState) :
    Option GoError × EffState :=
  match env.authResult with
  | Except.error e => (some e, s)
  | Except.ok _ =>
    let s := { s with events := s.events ++ [Event.k8sGet name ns] }
    match findRecord (name, ns) s.cluster with
    | none => (some (GoError.apiStatus 404 "spiaccesstokens.appstudio.redhat.com not found"), s)
    | some _ =>
      let s := { s with events := s.events ++ [Event.bodyDecodeCall] }
      match env.bodyDecode with
      | Except.error e => (some e, s)
      | Except.ok data =>
        let s := { s with events := s.events ++ [Event.storeCall name ns data] }
        match env.storeResult with
        | Except.error e => (some e, s)
        | Except.ok _ => (none, { s with storage := ((name, ns), data) :: s.storage })

/-- handleUpload (main.go lines 247-261): on a Handle error, respond with the
embedded APIStatus code when the error carries one, else 500; on success
respond 204. -/
def handleUpload (env : UploadEnv) (name ns : String) (w : ResponseWriter)
    (s : EffState) : ResponseWriter × EffState :=
  match tokenUploaderHandle env name ns s with
  | (some err, s) =>
    let code := match err with
      | GoError.apiStatus c _ => c
      | GoError.plain _ => 500
    (writeHeader w code, s)
  | (none, s) => (writeHeader w 204, s)

/-! Concrete fixtures used by the closed theorems and the witnesses. -/

def testController : CommonController :=
  ⟨"client-123", "client-secret-456", "GitHub", "https://spi.example.com/",
   "https://github.com/login/oauth/authorize",
   "https://github.com/login/oauth/access_token"⟩

def testAnon : AnonymousOAuthState := ⟨"t", "ns", 17000, ["a", "b"], "GitHub", "https://sp"⟩

def testAnonNoScopes : AnonymousOAuthState := ⟨"t", "ns", 17000, [], "GitHub", "https://sp"⟩

def testIdentityAlice : UserDefaultInfo := ⟨"alice", "uid-alice", ["dev"], []⟩

def testAuthedAlice : AuthenticatedOAuthState := ⟨testAnon, testIdentityAlice, "Bearer alice-token"⟩

def testToken : OAuth2TokenData := ⟨"tok", "bearer", "refresh", 9999999⟩

def testZeroTimeToken : OAuth2TokenData := ⟨"tok", "bearer", "", -62135596800⟩

def testMetadata : TokenMetadata := ⟨"42", "alice-gh"⟩

def testApiToken : ApiToken := ⟨"tok", "bearer", "refresh", goUint64 9999999⟩

def codecRejectAll : Codec :=
  ⟨fun _ => Except.error "invalid signature",
   fun _ => Except.error "invalid signature",
   specEncodeAuthenticated "shared-secret"⟩

def codecAnonOk (a : AnonymousOAuthState) : Codec :=
  ⟨fun _ => Except.ok a,
   fun _ => Except.error "expected the anonymous variant",
   specEncodeAuthenticated "shared-secret"⟩

def codecAuthedOk (st : AuthenticatedOAuthState) : Codec :=
  ⟨fun _ => Except.error "expected the authenticated variant",
   fun _ => Except.ok st,
   specEncodeAuthenticated "shared-secret"⟩

def codecEncodeFails (a : AnonymousOAuthState) : Codec :=
  ⟨fun _ => Except.ok a,
   fun _ => Except.error "expected the anonymous variant",
   fun _ => Except.error "jose: payload marshal failure"⟩

def testClusterState : EffState := ⟨[(("t", "ns"), ⟨none⟩)], [], []⟩

def testEmptyClusterState : EffState := ⟨[], [], []⟩

def testEnvBadState : CallbackEnv :=
  ⟨Except.ok codecRejectAll, fun _ _ => Except.error "unreached",
   fun _ => Except.error "unreached", Except.ok (), Except.ok ()⟩

def testEnvMismatch : CallbackEnv :=
  ⟨Except.ok (codecAuthedOk testAuthedAlice), fun _ _ => Except.ok testToken,
   fun _ => Except.ok testMetadata, Except.ok (), Except.ok ()⟩

def testEnvExchangeFails : CallbackEnv :=
  ⟨Except.ok (codecAuthedOk testAuthedAlice),
   fun _ _ => Except.error "oauth2: cannot fetch token: 401 Unauthorized",
   fun _ => Except.error "unreached", Except.ok (), Except.ok ()⟩

def testEnvZeroExpiry : CallbackEnv :=
  ⟨Except.ok (codecAuthedOk testAuthedAlice), fun _ _ => Except.ok testZeroTimeToken,
   fun _ => Except.ok testMetadata, Except.ok (), Except.ok ()⟩

def testCallbackReq : HttpRequest :=
  ⟨"GET", [("state", "signed-state"), ("code", "123")], "Bearer mallory-token"⟩

def testCallbackReqRedirect : HttpRequest :=
  ⟨"GET", [("state", "signed-state"), ("code", "123"),
    ("redirect_after_login", "https://x/y")], "Bearer alice-token"⟩

def testAuthReq : HttpRequest := ⟨"GET", [("state", "anon-state")], ""⟩

def testUploadEnvOk : UploadEnv :=
  ⟨Except.ok (), Except.ok ⟨"up-tok", "bearer", "", 42⟩, Except.ok ()⟩

/-- The oauth2.Config value Authenticate builds for a controller and a scope
list, as passed to AuthCodeURL. -/
def builtOAuth2Config (c : CommonController) (scopes : List String) : OAuth2Config :=
  ⟨c.clientId, c.clientSecret, redirectUrl c, c.authURL, scopes⟩

/-- The compact signed envelope the spec-modelled codec produces for the
authenticated state Authenticate builds from an anonymous state. -/
def specEncOf (secret : String) (anon : AnonymousOAuthState) : String :=
  serializeAuthenticated ⟨anon, emptyIdentity, ""⟩ ++ "." ++
    signPayload secret (serializeAuthenticated ⟨anon, emptyIdentity, ""⟩)

/-- Claim C2: a Callback whose state fails to decode as an AuthenticatedFlowState
is answered 400, without a token-exchange call and without any write to the
token storage or the owner record. -/
theorem callback_bad_state_rejected
    (c : CommonController) (env : CallbackEnv) (r : HttpRequest) (s : EffState)
    (cd : Codec) (e : String)
    (hc : env.codec = Except.ok cd)
    (hp : cd.parseAuthenticated (formValue r "state") = Except.error e) :
    (Callback c env r ResponseWriter.init s).1.status = some 400 ∧
    (Callback c env r ResponseWriter.init s).2.events = s.events ∧
    (Callback c env r ResponseWriter.init s).2.storage = s.storage ∧
    (Callback c env r ResponseWriter.init s).2.cluster = s.cluster := by
  simp only [Callback, finishOAuthExchange, hc, hp]
  simp [logAndWriteResponse, writeHeader, writeBody, ResponseWriter.init]

/-- Witness for C2: the theorem applied to a concrete rejecting codec. -/
theorem callback_bad_state_rejected_witness :
    (Callback testController testEnvBadState testCallbackReq ResponseWriter.init
        testClusterState).1.status = some 400 ∧
    (Callback testController testEnvBadState testCallbackReq ResponseWriter.init
        testClusterState).2.events = testClusterState.events ∧
    (Callback testController testEnvBadState testCallbackReq ResponseWriter.init
        testClusterState).2.storage = testClusterState.storage ∧
    (Callback testController testEnvBadState testCallbackReq ResponseWriter.init
        testClusterState).2.cluster = testClusterState.cluster :=
  callback_bad_state_rejected testController testEnvBadState testCallbackReq
    testClusterState codecRejectAll "invalid signature" rfl rfl

/-- Claim C6: a Callback with a valid state whose code exchange at the provider
fails is answered 400 with a body carrying the error text, and neither the
token storage nor the owner record is touched. -/
theorem callback_exchange_failure_rejected
    (c : CommonController) (env : CallbackEnv) (r : HttpRequest) (s : EffState)
    (cd : Codec) (state : AuthenticatedOAuthState) (e : String)
    (hc : env.codec = Except.ok cd)
    (hp : cd.parseAuthenticated (formValue r "state") = Except.ok state)
    (hx : env.exchange (formValue r "code") (formValue r "scope") = Except.error e) :
    (Callback c env r ResponseWriter.init s).1.status = some 400 ∧
    (Callback c env r ResponseWriter.init s).1.body =
      "error in Service Provider token exchange: %!(EXTRA string=" ++ e ++ ")" ∧
    (Callback c env r ResponseWriter.init s).2.storage = s.storage ∧
    (Callback c env r ResponseWriter.init s).2.cluster = s.cluster ∧
    (Callback c env r ResponseWriter.init s).2.events =
      s.events ++ [Event.exchangeCall (formValue r "code") (formValue r "scope")] := by
  simp only [Callback, finishOAuthExchange, hc, hp, hx]
  simp [logAndWriteResponse, writeHeader, writeBody, ResponseWriter.init]

/-- Witness for C6: the theorem applied to a concrete failing exchange. -/
theorem callback_exchange_failure_rejected_witness :
    (Callback testController testEnvExchangeFails testCallbackReq ResponseWriter.init
        testClusterState).1.status = some 400 ∧
    (Callback testController testEnvExchangeFails testCallbackReq ResponseWriter.init
        testClusterState).1.body =
      "error in Service Provider token exchange: %!(EXTRA string=" ++
        "oauth2: cannot fetch token: 401 Unauthorized" ++ ")" ∧
    (Callback testController testEnvExchangeFails testCallbackReq ResponseWriter.init
        testClusterState).2.storage = testClusterState.storage ∧
    (Callback testController testEnvExchangeFails testCallbackReq ResponseWriter.init
        testClusterState).2.cluster = testClusterState.cluster ∧
    (Callback testController testEnvExchangeFails testCallbackReq ResponseWriter.init
        testClusterState).2.events = testClusterState.events ++
      [Event.exchangeCall (formValue testCallbackReq "code")
        (formValue testCallbackReq "scope")] :=
  callback_exchange_failure_rejected testController testEnvExchangeFails testCallbackReq
    testClusterState (codecAuthedOk testAuthedAlice) testAuthedAlice
    "oauth2: cannot fetch token: 401 Unauthorized" rfl rfl rfl

/-- Claim C7: a fully successful Callback redirects with 302, to the
caller-supplied redirect_after_login when that is non-empty, and otherwise to
the default callback-success location derived from the configured base URL. -/
theorem callback_success_redirect
    (c : CommonController) (env : CallbackEnv) (r : HttpRequest) (s : EffState)
    (cd : Codec) (state : AuthenticatedOAuthState) (token : OAuth2TokenData)
    (md : TokenMetadata) (rec : SPIAccessToken)
    (hc : env.codec = Except.ok cd)
    (hp : cd.parseAuthenticated (formValue r "state") = Except.ok state)
    (hx : env.exchange (formValue r "code") (formValue r "scope") = Except.ok token)
    (hm : env.retrieveUserMetadata token = Except.ok md)
    (hrec : findRecord (state.anonymousOAuthState.tokenName,
        state.anonymousOAuthState.tokenNamespace) s.cluster = some rec)
    (hst : env.storeResult = Except.ok ())
    (hup : env.updateResult = Except.ok ()) :
    (Callback c env r ResponseWriter.init s).1.status = some 302 ∧
    (formValue r "redirect_after_login" ≠ "" →
      (Callback c env r ResponseWriter.init s).1.location =
        some (formValue r "redirect_after_login")) ∧
    (formValue r "redirect_after_login" = "" →
      (Callback c env r ResponseWriter.init s).1.location =
        some (goTrimSuffix c.baseUrl "/" ++ "/" ++ "callback_success")) := by
  simp only [Callback, finishOAuthExchange, syncTokenData, hc, hp, hx, hm, hst, hup, hrec]
  simp only [httpRedirect, setLocationHeader, writeHeader, writeBody, ResponseWriter.init]
  refine ⟨?_, ?_, ?_⟩
  · simp
  · intro h
    simp [h]
  · intro h
    simp [h]

/-- Witness for C7: the theorem applied to a concrete fully successful flow
that supplies redirect_after_login. -/
theorem callback_success_redirect_witness :
    (Callback testController testEnvMismatch testCallbackReqRedirect ResponseWriter.init
        testClusterState).1.status = some 302 ∧
    (formValue testCallbackReqRedirect "redirect_after_login" ≠ "" →
      (Callback testController testEnvMismatch testCallbackReqRedirect ResponseWriter.init
          testClusterState).1.location =
        some (formValue testCallbackReqRedirect "redirect_after_login")) ∧
    (formValue testCallbackReqRedirect "redirect_after_login" = "" →
      (Callback testController testEnvMismatch testCallbackReqRedirect ResponseWriter.init
          testClusterState).1.location =
        some (goTrimSuffix testController.baseUrl "/" ++ "/" ++ "callback_success")) :=
  callback_success_redirect testController testEnvMismatch testCallbackReqRedirect
    testClusterState (codecAuthedOk testAuthedAlice) testAuthedAlice testToken
    testMetadata ⟨none⟩ rfl rfl rfl rfl rfl rfl rfl

/-- Claim C8: in Callback persistence the token-storage write precedes the
owner-record status update; when the write succeeds and the update fails, the
response is 500 while the written token stays in storage; when the write
fails, the update is never attempted. -/
theorem callback_store_precedes_update
    (c : CommonController) (r : HttpRequest) (s : EffState) (cd : Codec)
    (ex : String → String → Except String OAuth2TokenData)
    (rm : OAuth2TokenData → Except String TokenMetadata)
    (state : AuthenticatedOAuthState) (token : OAuth2TokenData) (md : TokenMetadata)
    (rec : SPIAccessToken) (e e2 : String) (u : Except String Unit)
    (hp : cd.parseAuthenticated (formValue r "state") = Except.ok state)
    (hx : ex (formValue r "code") (formValue r "scope") = Except.ok token)
    (hm : rm token = Except.ok md)
    (hev : s.events = [])
    (hrec : findRecord (state.anonymousOAuthState.tokenName,
        state.anonymousOAuthState.tokenNamespace) s.cluster = some rec) :
    ((Callback c ⟨Except.ok cd, ex, rm, Except.ok (), Except.error e⟩ r
        ResponseWriter.init s).1.status = some 500 ∧
     findRecord (state.anonymousOAuthState.tokenName,
        state.anonymousOAuthState.tokenNamespace)
        (Callback c ⟨Except.ok cd, ex, rm, Except.ok (), Except.error e⟩ r
          ResponseWriter.init s).2.storage =
       some ⟨token.accessToken, token.tokenType, token.refreshToken,
         goUint64 token.expiryUnixSeconds⟩ ∧
     (Callback c ⟨Except.ok cd, ex, rm, Except.ok (), Except.error e⟩ r
        ResponseWriter.init s).2.events =
       [Event.exchangeCall (formValue r "code") (formValue r "scope"),
        Event.metadataFetch,
        Event.k8sGet state.anonymousOAuthState.tokenName
          state.anonymousOAuthState.tokenNamespace,
        Event.storeCall state.anonymousOAuthState.tokenName
          state.anonymousOAuthState.tokenNamespace
          ⟨token.accessToken, token.tokenType, token.refreshToken,
            goUint64 token.expiryUnixSeconds⟩,
        Event.updateCall state.anonymousOAuthState.tokenName
          state.anonymousOAuthState.tokenNamespace]) ∧
    ((Callback c ⟨Except.ok cd, ex, rm, Except.error e2, u⟩ r
        ResponseWriter.init s).2.events =
       [Event.exchangeCall (formValue r "code") (formValue r "scope"),
        Event.metadataFetch,
        Event.k8sGet state.anonymousOAuthState.tokenName
          state.anonymousOAuthState.tokenNamespace,
        Event.storeCall state.anonymousOAuthState.tokenName
          state.anonymousOAuthState.tokenNamespace
          ⟨token.accessToken, token.tokenType, token.refreshToken,
            goUint64 token.expiryUnixSeconds⟩] ∧
     (Callback c ⟨Except.ok cd, ex, rm, Except.error e2, u⟩ r
        ResponseWriter.init s).2.storage = s.storage) := by
  refine ⟨⟨?_, ?_, ?_⟩, ?_, ?_⟩ <;>
    simp [Callback, finishOAuthExchange, syncTokenData, hp, hx, hm, hev, hrec,
      logAndWriteResponse, writeHeader, writeBody, ResponseWriter.init, findRecord]

/-- Witness for C8: the theorem applied to a concrete flow where the update
fails with a conflict and, in the second part, the store fails. -/
theorem callback_store_precedes_update_witness :
    ((Callback testController ⟨Except.ok (codecAuthedOk testAuthedAlice),
        fun _ _ => Except.ok testToken, fun _ => Except.ok testMetadata,
        Except.ok (), Except.error "update conflict"⟩ testCallbackReq
        ResponseWriter.init testClusterState).1.status = some 500 ∧
     findRecord (testAuthedAlice.anonymousOAuthState.tokenName,
        testAuthedAlice.anonymousOAuthState.tokenNamespace)
        (Callback testController ⟨Except.ok (codecAuthedOk testAuthedAlice),
          fun _ _ => Except.ok testToken, fun _ => Except.ok testMetadata,
          Except.ok (), Except.error "update conflict"⟩ testCallbackReq
          ResponseWriter.init testClusterState).2.storage =
       some ⟨testToken.accessToken, testToken.tokenType, testToken.refreshToken,
         goUint64 testToken.expiryUnixSeconds⟩ ∧
     (Callback testController ⟨Except.ok (codecAuthedOk testAuthedAlice),
        fun _ _ => Except.ok testToken, fun _ => Except.ok testMetadata,
        Except.ok (), Except.error "update conflict"⟩ testCallbackReq
        ResponseWriter.init testClusterState).2.events =
       [Event.exchangeCall (formValue testCallbackReq "code")
          (formValue testCallbackReq "scope"),
        Event.metadataFetch,
        Event.k8sGet testAuthedAlice.anonymousOAuthState.tokenName
          testAuthedAlice.anonymousOAuthState.tokenNamespace,
        Event.storeCall testAuthedAlice.anonymousOAuthState.tokenName
          testAuthedAlice.anonymousOAuthState.tokenNamespace
          ⟨testToken.accessToken, testToken.tokenType, testToken.refreshToken,
            goUint64 testToken.expiryUnixSeconds⟩,
        Event.updateCall testAuthedAlice.anonymousOAuthState.tokenName
          testAuthedAlice.anonymousOAuthState.tokenNamespace]) ∧
    ((Callback testController ⟨Except.ok (codecAuthedOk testAuthedAlice),
        fun _ _ => Except.ok testToken, fun _ => Except.ok testMetadata,
        Except.error "vault unavailable", Except.ok ()⟩ testCallbackReq
        ResponseWriter.init testClusterState).2.events =
       [Event.exchangeCall (formValue testCallbackReq "code")
          (formValue testCallbackReq "scope"),
        Event.metadataFetch,
        Event.k8sGet testAuthedAlice.anonymousOAuthState.tokenName
          testAuthedAlice.anonymousOAuthState.tokenNamespace,
        Event.storeCall testAuthedAlice.anonymousOAuthState.tokenName
          testAuthedAlice.anonymousOAuthState.tokenNamespace
          ⟨testToken.accessToken, testToken.tokenType, testToken.refreshToken,
            goUint64 testToken.expiryUnixSeconds⟩] ∧
     (Callback testController ⟨Except.ok (codecAuthedOk testAuthedAlice),
        fun _ _ => Except.ok testToken, fun _ => Except.ok testMetadata,
        Except.error "vault unavailable", Except.ok ()⟩ testCallbackReq
        ResponseWriter.init testClusterState).2.storage = testClusterState.storage) :=
  callback_store_precedes_update testController testCallbackReq testClusterState
    (codecAuthedOk testAuthedAlice) (fun _ _ => Except.ok testToken)
    (fun _ => Except.ok testMetadata) testAuthedAlice testToken testMetadata
    ⟨none⟩ "update conflict" "vault unavailable" (Except.ok ()) rfl rfl rfl rfl rfl

/-- Claim C10: a Callback that reaches persistence stores Expiry =
uint64(token.Expiry.Unix()), i.e. the Unix-seconds value reduced modulo 2^64;
for Go's zero time (Unix() = -62135596800, the no-expiry case) the wrap stores
the far-future value 18446744011573954816 rather than zero. -/
theorem callback_expiry_uint64_wrap
    (c : CommonController) (env : CallbackEnv) (r : HttpRequest) (s : EffState)
    (cd : Codec) (state : AuthenticatedOAuthState) (token : OAuth2TokenData)
    (md : TokenMetadata) (rec : SPIAccessToken)
    (hc : env.codec = Except.ok cd)
    (hp : cd.parseAuthenticated (formValue r "state") = Except.ok state)
    (hx : env.exchange (formValue r "code") (formValue r "scope") = Except.ok token)
    (hm : env.retrieveUserMetadata token = Except.ok md)
    (hrec : findRecord (state.anonymousOAuthState.tokenName,
        state.anonymousOAuthState.tokenNamespace) s.cluster = some rec)
    (hst : env.storeResult = Except.ok ())
    (hup : env.updateResult = Except.ok ()) :
    findRecord (state.anonymousOAuthState.tokenName,
        state.anonymousOAuthState.tokenNamespace)
      (Callback c env r ResponseWriter.init s).2.storage =
      some ⟨token.accessToken, token.tokenType, token.refreshToken,
        ((token.expiryUnixSeconds % (2 ^ 64 : Int)).toNat)⟩ ∧
    goUint64 (-62135596800) = 18446744011573954816 ∧
    goUint64 (-62135596800) ≠ 0 := by
  simp only [Callback, finishOAuthExchange, syncTokenData, hc, hp, hx, hm, hst, hup, hrec]
  refine ⟨?_, by decide, by decide⟩
  simp [findRecord, goUint64]

/-- Witness for C10: the theorem applied to a flow whose provider token has
the zero-time expiry. -/
theorem callback_expiry_uint64_wrap_witness :
    findRecord (testAuthedAlice.anonymousOAuthState.tokenName,
        testAuthedAlice.anonymousOAuthState.tokenNamespace)
      (Callback testController testEnvZeroExpiry testCallbackReq ResponseWriter.init
        testClusterState).2.storage =
      some ⟨testZeroTimeToken.accessToken, testZeroTimeToken.tokenType,
        testZeroTimeToken.refreshToken,
        ((testZeroTimeToken.expiryUnixSeconds % (2 ^ 64 : Int)).toNat)⟩ ∧
    goUint64 (-62135596800) = 18446744011573954816 ∧
    goUint64 (-62135596800) ≠ 0 :=
  callback_expiry_uint64_wrap testController testEnvZeroExpiry testCallbackReq
    testClusterState (codecAuthedOk testAuthedAlice) testAuthedAlice testZeroTimeToken
    testMetadata ⟨none⟩ rfl rfl rfl rfl rfl rfl rfl

/-- Claim C9: a Direct Upload addressed to a namespace/name pair with no owner
record fails with the not-found APIStatus error before the request body is
read or decoded, handleUpload answers with that 404, and the token storage
receives zero writes. -/
theorem upload_missing_record_404
    (env : UploadEnv) (name ns : String) (s : EffState)
    (ha : env.authResult = Except.ok ())
    (hrec : findRecord (name, ns) s.cluster = none) :
    (handleUpload env name ns ResponseWriter.init s).1.status = some 404 ∧
    (handleUpload env name ns ResponseWriter.init s).2.events =
      s.events ++ [Event.k8sGet name ns] ∧
    (handleUpload env name ns ResponseWriter.init s).2.storage = s.storage ∧
    (tokenUploaderHandle env name ns s).1 =
      some (GoError.apiStatus 404 "spiaccesstokens.appstudio.redhat.com not found") := by
  simp only [handleUpload, tokenUploaderHandle, ha, hrec]
  simp [writeHeader, ResponseWriter.init]

/-- Witness for C9: the theorem applied to an empty cluster. -/
theorem upload_missing_record_404_witness :
    (handleUpload testUploadEnvOk "missing-name" "ns" ResponseWriter.init
        testEmptyClusterState).1.status = some 404 ∧
    (handleUpload testUploadEnvOk "missing-name" "ns" ResponseWriter.init
        testEmptyClusterState).2.events =
      testEmptyClusterState.events ++ [Event.k8sGet "missing-name" "ns"] ∧
    (handleUpload testUploadEnvOk "missing-name" "ns" ResponseWriter.init
        testEmptyClusterState).2.storage = testEmptyClusterState.storage ∧
    (tokenUploaderHandle testUploadEnvOk "missing-name" "ns" testEmptyClusterState).1 =
      some (GoError.apiStatus 404 "spiaccesstokens.appstudio.redhat.com not found") :=
  upload_missing_record_404 testUploadEnvOk "missing-name" "ns" testEmptyClusterState
    rfl rfl

/-- Claim C4: when encoding the built AuthenticatedFlowState fails,
Authenticate answers 500 and no 302 redirect reaches the wire: the source is
missing a return after the 500, but the later http.Redirect can change neither
the already-written status nor the untransmitted Location header. -/
theorem authenticate_encode_failure_500
    (c : CommonController) (cd : Codec) (r : HttpRequest)
    (anon : AnonymousOAuthState) (e : String)
    (hp : cd.parseAnonymous (formValue r "state") = Except.ok anon)
    (he : cd.encodeAuthenticated ⟨anon, emptyIdentity, ""⟩ = Except.error e) :
    (Authenticate c (Except.ok cd) r ResponseWriter.init).status = some 500 ∧
    (Authenticate c (Except.ok cd) r ResponseWriter.init).location = none ∧
    (Authenticate c (Except.ok cd) r ResponseWriter.init).status ≠ some 302 := by
  simp only [Authenticate, hp, he]
  simp [logAndWriteResponse, writeHeader, writeBody, setLocationHeader, httpRedirect,
    ResponseWriter.init]

/-- Witness for C4: the theorem applied to a codec whose encoder fails. -/
theorem authenticate_encode_failure_500_witness :
    (Authenticate testController (Except.ok (codecEncodeFails testAnon)) testAuthReq
        ResponseWriter.init).status = some 500 ∧
    (Authenticate testController (Except.ok (codecEncodeFails testAnon)) testAuthReq
        ResponseWriter.init).location = none ∧
    (Authenticate testController (Except.ok (codecEncodeFails testAnon)) testAuthReq
        ResponseWriter.init).status ≠ some 302 :=
  authenticate_encode_failure_500 testController (codecEncodeFails testAnon) testAuthReq
    testAnon "jose: payload marshal failure" rfl rfl

/-- Claim C5 evaluation (the claim fails on the code): the credential check of
Authenticate is commented out in the source, so a request carrying no
Authorization header and no k8s_token form field is not answered 401; the
handler builds an AuthenticatedFlowState around the empty identity and
redirects 302 to the provider. -/
theorem authenticate_missing_credential_not_rejected :
    testAuthReq.authorizationHeader = "" ∧
    List.lookup "k8s_token" testAuthReq.form = none ∧
    (Authenticate testController (Except.ok (codecAnonOk testAnon)) testAuthReq
        ResponseWriter.init).status = some 302 ∧
    (Authenticate testController (Except.ok (codecAnonOk testAnon)) testAuthReq
        ResponseWriter.init).status ≠ some 401 ∧
    (Authenticate testController (Except.ok (codecAnonOk testAnon)) testAuthReq
        ResponseWriter.init).location ≠ none :=
  ⟨rfl, rfl, rfl, by decide, by decide⟩

/-- Claim C1 evaluation (the claim fails on the code): the caller-identity
comparison at Callback is commented out in the source, so finishOAuthExchange
never produces the K8sAuthRequired result, and a Callback whose state carries
the identity and credential of one caller while the request presents a
different credential still completes: 302, with a write to token storage. -/
theorem callback_identity_mismatch_not_rejected :
    (∀ (env : CallbackEnv) (r : HttpRequest) (s : EffState),
        (finishOAuthExchange env r s).1 ≠ OauthFinish.k8sAuthRequired) ∧
    testAuthedAlice.authorizationHeader ≠ testCallbackReq.authorizationHeader ∧
    (Callback testController testEnvMismatch testCallbackReq ResponseWriter.init
        testClusterState).1.status = some 302 ∧
    (Callback testController testEnvMismatch testCallbackReq ResponseWriter.init
        testClusterState).1.status ≠ some 401 ∧
    Event.storeCall "t" "ns" testApiToken ∈
      (Callback testController testEnvMismatch testCallbackReq ResponseWriter.init
        testClusterState).2.events ∧
    findRecord ("t", "ns")
      (Callback testController testEnvMismatch testCallbackReq ResponseWriter.init
        testClusterState).2.storage = some testApiToken := by
  refine ⟨?_, by decide, rfl, by decide, by decide, by decide⟩
  intro env r s
  unfold finishOAuthExchange
  rcases h1 : env.codec with e | cd
  · simp
  · rcases h2 : cd.parseAuthenticated (formValue r "state") with e | st
    · simp [h2]
    · rcases h3 : env.exchange (formValue r "code") (formValue r "scope") with e | t <;>
        simp [h2, h3]

/-- Compatibility lemma: String.append concatenates the character data. -/
theorem string_data_append (a b : String) : (a ++ b).data = a.data ++ b.data := by
  cases a
  cases b
  rfl

/-- A string with a non-empty right append component is non-empty. -/
theorem string_append_ne_empty_right (a b : String) (h : b ≠ "") : a ++ b ≠ "" := by
  intro hc
  apply h
  have hd := congrArg String.data hc
  rw [string_data_append] at hd
  rcases List.append_eq_nil.mp hd with ⟨h1, h2⟩
  cases b
  simp at h2
  subst h2
  rfl

/-- Claim C3, amended: an Authenticate request whose state decodes as a valid
AnonymousFlowState, under the spec-modelled codec, answers 302 to the provider
authorization URL whose query carries client_id, response_type=code, a
non-empty state, redirect_uri = trimmed base URL + "/" + lowercase provider
type + "/callback", and — whenever the requested scope list is non-empty — a
scope equal to the space-joined requested scopes (with an empty scope list the
oauth2 library omits the scope parameter entirely, which is what the
counterexample exhibits). -/
theorem authenticate_valid_state_provider_redirect
    (c : CommonController) (cd : Codec) (r : HttpRequest)
    (anon : AnonymousOAuthState) (secret : String)
    (hp : cd.parseAnonymous (formValue r "state") = Except.ok anon)
    (he : cd.encodeAuthenticated = specEncodeAuthenticated secret)
    (hs : anon.scopes ≠ []) :
    (Authenticate c (Except.ok cd) r ResponseWriter.init).status = some 302 ∧
    (Authenticate c (Except.ok cd) r ResponseWriter.init).location =
      some (authCodeURL (builtOAuth2Config c anon.scopes) (specEncOf secret anon)) ∧
    ("client_id", c.clientId) ∈
      authCodeParams (builtOAuth2Config c anon.scopes) (specEncOf secret anon) ∧
    ("response_type", "code") ∈
      authCodeParams (builtOAuth2Config c anon.scopes) (specEncOf secret anon) ∧
    ("scope", String.intercalate " " anon.scopes) ∈
      authCodeParams (builtOAuth2Config c anon.scopes) (specEncOf secret anon) ∧
    ("state", specEncOf secret anon) ∈
      authCodeParams (builtOAuth2Config c anon.scopes) (specEncOf secret anon) ∧
    specEncOf secret anon ≠ "" ∧
    ("redirect_uri", redirectUrl c) ∈
      authCodeParams (builtOAuth2Config c anon.scopes) (specEncOf secret anon) := by
  have hsign : signPayload secret (serializeAuthenticated ⟨anon, emptyIdentity, ""⟩) ≠ "" := by
    unfold signPayload
    exact string_append_ne_empty_right _ _ (by decide)
  have henc : specEncOf secret anon ≠ "" := by
    unfold specEncOf
    exact string_append_ne_empty_right _ _ hsign
  have hru : redirectUrl c ≠ "" := by
    unfold redirectUrl
    exact string_append_ne_empty_right _ _ (by decide)
  refine ⟨?_, ?_, ?_, ?_, ?_, ?_, henc, ?_⟩
  · simp only [Authenticate, hp, he, specEncodeAuthenticated]
    simp [httpRedirect, setLocationHeader, writeHeader, writeBody, ResponseWriter.init]
  · simp only [Authenticate, hp, he, specEncodeAuthenticated]
    simp [httpRedirect, setLocationHeader, writeHeader, writeBody, ResponseWriter.init,
      builtOAuth2Config, specEncOf]
  · simp [authCodeParams, builtOAuth2Config, hru, hs, henc]
  · simp [authCodeParams, builtOAuth2Config, hru, hs, henc]
  · simp [authCodeParams, builtOAuth2Config, hru, hs, henc]
  · simp [authCodeParams, builtOAuth2Config, hru, hs, henc]
  · simp [authCodeParams, builtOAuth2Config, hru, hs, henc]

/-- Witness for C3 (amended): the theorem applied to Scenario A's state with
scopes a and b. -/
theorem authenticate_valid_state_provider_redirect_witness :
    (Authenticate testController (Except.ok (codecAnonOk testAnon)) testAuthReq
        ResponseWriter.init).status = some 302 ∧
    (Authenticate testController (Except.ok (codecAnonOk testAnon)) testAuthReq
        ResponseWriter.init).location =
      some (authCodeURL (builtOAuth2Config testController testAnon.scopes)
        (specEncOf "shared-secret" testAnon)) ∧
    ("client_id", testController.clientId) ∈
      authCodeParams (builtOAuth2Config testController testAnon.scopes)
        (specEncOf "shared-secret" testAnon) ∧
    ("response_type", "code") ∈
      authCodeParams (builtOAuth2Config testController testAnon.scopes)
        (specEncOf "shared-secret" testAnon) ∧
    ("scope", String.intercalate " " testAnon.scopes) ∈
      authCodeParams (builtOAuth2Config testController testAnon.scopes)
        (specEncOf "shared-secret" testAnon) ∧
    ("state", specEncOf "shared-secret" testAnon) ∈
      authCodeParams (builtOAuth2Config testController testAnon.scopes)
        (specEncOf "shared-secret" testAnon) ∧
    specEncOf "shared-secret" testAnon ≠ "" ∧
    ("redirect_uri", redirectUrl testController) ∈
      authCodeParams (builtOAuth2Config testController testAnon.scopes)
        (specEncOf "shared-secret" testAnon) :=
  authenticate_valid_state_provider_redirect testController (codecAnonOk testAnon)
    testAuthReq testAnon "shared-secret" rfl rfl (by decide)

/-- Counterexample to C3 as stated: with a state whose requested scope list is
empty, Authenticate still answers 302 to the provider URL, but the URL's query
carries no scope parameter at all, so it does not contain a scope equal to the
space-joined requested scopes. -/
theorem authenticate_empty_scopes_scope_param_missing :
    (Authenticate testController (Except.ok (codecAnonOk testAnonNoScopes)) testAuthReq
        ResponseWriter.init).status = some 302 ∧
    (Authenticate testController (Except.ok (codecAnonOk testAnonNoScopes)) testAuthReq
        ResponseWriter.init).location =
      some (authCodeURL (builtOAuth2Config testController testAnonNoScopes.scopes)
        (specEncOf "shared-secret" testAnonNoScopes)) ∧
    ("scope", String.intercalate " " testAnonNoScopes.scopes) ∉
      authCodeParams (builtOAuth2Config testController testAnonNoScopes.scopes)
        (specEncOf "shared-secret" testAnonNoScopes) ∧
    (∀ p ∈ authCodeParams (builtOAuth2Config testController testAnonNoScopes.scopes)
        (specEncOf "shared-secret" testAnonNoScopes), p.1 ≠ "scope") := by
  have hsign : signPayload "shared-secret"
      (serializeAuthenticated ⟨testAnonNoScopes, emptyIdentity, ""⟩) ≠ "" := by
    unfold signPayload
    exact string_append_ne_empty_right _ _ (by decide)
  have henc : specEncOf "shared-secret" testAnonNoScopes ≠ "" := by
    unfold specEncOf
    exact string_append_ne_empty_right _ _ hsign
  have hru : redirectUrl testController ≠ "" := by
    unfold redirectUrl
    exact string_append_ne_empty_right _ _ (by decide)
  refine ⟨rfl, rfl, ?_, ?_⟩
  · simp [authCodeParams, builtOAuth2Config, henc, hru, testAnonNoScopes]
  · simp [authCodeParams, builtOAuth2Config, henc, hru, testAnonNoScopes]
